import Mathlib

/-!
Verification of the resilient RPC gateway of the DSA-Lab5 repository
(src/dsa-lab5/rest/app.py, src/dsa-lab5/rest/jwt_middleware.py,
src/dsa-lab5/grpc/server.py).

The Python sources are shallowly embedded: pure control flow becomes Lean
functions, the gRPC/Mongo/Flask collaborators become explicit parameters or
small value types, and the pybreaker circuit-breaker library (an external
dependency configured in app.py) is modelled from the specification with the
configuration constants taken from the source.
-/

namespace DsaLab5

/-- gRPC status codes relevant to the gateway (grpc.StatusCode values used in
the sources). -/
inductive StatusCode where
  | ok
  | notFound
  | invalidArgument
  | alreadyExists
  | unavailable
  | deadlineExceeded
  | internalError
  deriving DecidableEq, Repr

/-- Behaviour of one invocation of a wrapped callable: a normal return,
a raised grpc.RpcError carrying a status code, or any other raised
exception (tagged by a number). -/
inductive CallOutcome where
  | success (v : Nat)
  | rpcError (code : StatusCode)
  | otherError (tag : Nat)
  deriving DecidableEq, Repr

/-- Result of running the retry_grpc wrapper: the behaviour propagated to the
caller (none only in the degenerate max_retries = 0 case where the loop body
never runs), the sleep delays observed in milliseconds, and the number of
attempts made. -/
structure RetryResult where
  result : Option CallOutcome
  delays : List Nat
  attempts : Nat
  deriving DecidableEq, Repr

/-- The retry loop of retry_grpc (src/dsa-lab5/rest/app.py lines 142-160):
for attempt in range(max_retries): try return f(); on grpc.RpcError re-raise
if this was the last attempt, otherwise sleep(delay) and double delay; on any
other exception re-raise at once. `remaining` is the number of loop
iterations still available, so the last attempt is the one with
remaining = 1. -/
def retryLoop (f : Nat → CallOutcome) (remaining attempt delay : Nat) : RetryResult :=
  match remaining with
  | 0 => ⟨none, [], 0⟩
  | r + 1 =>
    match f attempt with
    | .success v => ⟨some (.success v), [], 1⟩
    | .rpcError c =>
        if r = 0 then ⟨some (.rpcError c), [], 1⟩
        else
          let rest := retryLoop f r (attempt + 1) (delay * 2)
          ⟨rest.result, delay :: rest.delays, rest.attempts + 1⟩
    | .otherError t => ⟨some (.otherError t), [], 1⟩

/-- retry_grpc with its default configuration (max_retries = 3,
initial_delay = 0.1 s = 100 ms), as applied by the @retry_grpc() decorators
in src/dsa-lab5/rest/app.py. -/
def retryGrpc (f : Nat → CallOutcome) : RetryResult :=
  retryLoop f 3 0 100

/-- The status codes the breaker is configured to exclude
(src/dsa-lab5/rest/app.py lines 130-133): NOT_FOUND and INVALID_ARGUMENT
only. -/
def excludedCode : StatusCode → Bool
  | .notFound => true
  | .invalidArgument => true
  | _ => false

/-- Whether a call behaviour counts as a failure for the breaker: any raised
exception whose status code is not in the configured exclude list. -/
def breakerFailure : CallOutcome → Bool
  | .success _ => false
  | .rpcError c => !excludedCode c
  | .otherError _ => true

/-- Circuit breaker states. -/
inductive BState where
  | closed
  | opened
  | halfOpen
  deriving DecidableEq, Repr

/-- Circuit breaker data: current state, consecutive-failure count, and the
time (in seconds) at which the breaker last opened. -/
structure Breaker where
  state : BState
  failCount : Nat
  openedAt : Nat
  deriving DecidableEq, Repr

/-- fail_max configured in src/dsa-lab5/rest/app.py line 128. -/
def failMax : Nat := 3

/-- reset_timeout (seconds) configured in src/dsa-lab5/rest/app.py line 129. -/
def resetTimeout : Nat := 30

/-- Modelled from the spec: the CircuitBreaker implementation lives in the
external pybreaker library, not in this repository; only its configuration
(fail_max = 3, reset_timeout = 30, the exclude list) is in
src/dsa-lab5/rest/app.py lines 127-136. Gate run before a guarded call:
CLOSED and HALF_OPEN let the call through; OPEN rejects it until the reset
timeout has elapsed since opening, after which the next call is allowed
through as the HALF_OPEN trial. -/
def beforeCall (b : Breaker) (now : Nat) : Option Breaker :=
  match b.state with
  | .closed => some b
  | .halfOpen => some b
  | .opened =>
      if b.openedAt + resetTimeout ≤ now then some { b with state := .halfOpen }
      else none

/-- Modelled from the spec: state update after a guarded call completes
(pybreaker library behaviour described in spec section 4.2). A counted
failure increments the consecutive-failure count; reaching the threshold in
CLOSED, or any counted failure during the HALF_OPEN trial, opens the breaker
and records the opening time. A success (or an excluded outcome, which does
not count as a failure) resets the count and closes a HALF_OPEN breaker. -/
def afterCall (b : Breaker) (now : Nat) (out : CallOutcome) : Breaker :=
  if breakerFailure out then
    match b.state with
    | .halfOpen => ⟨.opened, b.failCount + 1, now⟩
    | .closed =>
        if failMax ≤ b.failCount + 1 then ⟨.opened, b.failCount + 1, now⟩
        else ⟨.closed, b.failCount + 1, b.openedAt⟩
    | .opened => ⟨.opened, b.failCount + 1, now⟩
  else
    match b.state with
    | .halfOpen => ⟨.closed, 0, b.openedAt⟩
    | s => ⟨s, 0, b.openedAt⟩

/-- Result of one breaker-guarded call: whether the wrapped operation was
actually invoked (backend traffic), the behaviour seen by the caller (none
models the CircuitBreakerError rejection), and the updated breaker. -/
structure GuardedResult where
  backendCalled : Bool
  outcome : Option CallOutcome
  breaker : Breaker
  deriving DecidableEq, Repr

/-- Modelled from the spec: breaker.call semantics (pybreaker library) —
consult the gate, then either reject without invoking the operation or
invoke it and update the breaker from its outcome. `out` is the behaviour
the wrapped operation would have if invoked at time `now`. -/
def breakerCall (b : Breaker) (now : Nat) (out : CallOutcome) : GuardedResult :=
  match beforeCall b now with
  | none => ⟨false, none, b⟩
  | some b1 => ⟨true, some out, afterCall b1 now out⟩

/-- The breaker as created at startup: CLOSED with zero consecutive
failures. -/
def freshBreaker : Breaker := ⟨.closed, 0, 0⟩

/-- Run a sequence of guarded calls, each given as (time, behaviour),
threading the breaker state. -/
def runCalls (b : Breaker) (events : List (Nat × CallOutcome)) : Breaker :=
  events.foldl (fun acc e => (breakerCall acc e.1 e.2).breaker) b

/-- Turn a list of (time, status code) pairs into guarded-call events whose
behaviour raises grpc.RpcError with that code. -/
def rpcEvents (l : List (Nat × StatusCode)) : List (Nat × CallOutcome) :=
  l.map fun p => (p.1, CallOutcome.rpcError p.2)

/-- The body of the GET /items handler (src/dsa-lab5/rest/app.py lines
284-290) seen as a wrapped callable for retry_grpc: it invokes
stub.ListAllItems directly — the circuit breaker does not appear in this
path — and catches grpc.RpcError itself, returning HTTP 500; a success
returns HTTP 200; any other exception propagates. The returned value is the
HTTP status. -/
def getAllItemsBody (backendOut : CallOutcome) : CallOutcome :=
  match backendOut with
  | .success _ => .success 200
  | .rpcError _ => .success 500
  | .otherError t => .otherError t

/-- The full GET /items call path after authentication
(src/dsa-lab5/rest/app.py lines 281-290): @retry_grpc() wrapping the handler
body. The breaker argument is unused, exactly as in the source, where the
handler calls the stub without consulting the breaker. `backend` gives the
behaviour of the ListAllItems call on each attempt; one retry attempt makes
exactly one backend call, so `attempts` of the result counts backend
calls. -/
def getAllItemsPipeline (b : Breaker) (backend : Nat → CallOutcome) : RetryResult :=
  retryGrpc (fun attempt => getAllItemsBody (backend attempt))

/-- The body of the GET /items/{id} handler (src/dsa-lab5/rest/app.py lines
294-304) as a wrapped callable: GetItemById success with id 0 maps to 404,
other success to 200; a NOT_FOUND RpcError maps to 404, other RpcErrors to
500; other exceptions propagate. -/
def getItemBody (backendOut : CallOutcome) : CallOutcome :=
  match backendOut with
  | .success v => .success (if v = 0 then 404 else 200)
  | .rpcError c => .success (if c = .notFound then 404 else 500)
  | .otherError t => .otherError t

/-- The full GET /items/{id} call path (src/dsa-lab5/rest/app.py lines
292-304): @retry_grpc() wrapping the handler body; no breaker and no
token_required decorator appear on this route. -/
def getItemPipeline (backend : Nat → CallOutcome) : RetryResult :=
  retryGrpc (fun attempt => getItemBody (backend attempt))

/-- The POST /items handler core after authentication and input validation
(src/dsa-lab5/rest/app.py lines 262-279): a single breaker-guarded AddItem
call with no retry wrapper. A breaker rejection (CircuitBreakerError) is
caught by the generic except branch and surfaces as HTTP 500, an RpcError as
HTTP 500, and a success as HTTP 201. Returns the HTTP status, the updated
breaker, and whether the backend was reached. -/
def createItemPipeline (b : Breaker) (now : Nat) (backendOut : CallOutcome) :
    Nat × Breaker × Bool :=
  let g := breakerCall b now backendOut
  match g.outcome with
  | none => (500, g.breaker, g.backendCalled)
  | some (.success _) => (201, g.breaker, g.backendCalled)
  | some (.rpcError _) => (500, g.breaker, g.backendCalled)
  | some (.otherError _) => (500, g.breaker, g.backendCalled)

/-- The composition the specification describes for retry and the breaker
(spec section 4.3): retries on the OUTSIDE, every individual attempt going
through breaker.call, so a CircuitBreakerError (not a grpc.RpcError, hence
never retried) stops the sequence at once. This definition follows the
spec's words and exists to be compared with the call paths embedded from the
source. Returns the propagated behaviour, the final breaker, and the number
of backend calls made. `times` gives the clock time of each attempt. -/
def specRetryThroughBreaker (times : Nat → Nat) (backend : Nat → CallOutcome) :
    Nat → Nat → Nat → Breaker → Option CallOutcome × Breaker × Nat
  | 0, _, _, b => (none, b, 0)
  | r + 1, attempt, delay, b =>
    let g := breakerCall b (times attempt) (backend attempt)
    if g.backendCalled then
      match g.outcome with
      | some (.success v) => (some (.success v), g.breaker, 1)
      | some (.rpcError c) =>
          if r = 0 then (some (.rpcError c), g.breaker, 1)
          else
            let rest := specRetryThroughBreaker times backend r (attempt + 1) (delay * 2) g.breaker
            (rest.1, rest.2.1, rest.2.2 + 1)
      | some (.otherError t) => (some (.otherError t), g.breaker, 1)
      | none => (none, g.breaker, 1)
    else
      (some (.otherError 503), g.breaker, 0)

/-- The gRPC host and port configured for the gateway
(src/dsa-lab5/rest/app.py lines 69-70, default values). -/
def grpcTarget (host port : String) : String := host ++ ":" ++ port

/-- The credential material visible to create_grpc_channel: whether each of
the three certificate files exists in the working directory, their contents
(abstracted as numbers), and whether grpc.ssl_channel_credentials accepts
those contents. -/
structure CredConfig where
  caPresent : Bool
  keyPresent : Bool
  certPresent : Bool
  caBytes : Nat
  keyBytes : Nat
  certBytes : Nat
  parseOk : Bool
  deriving DecidableEq, Repr

/-- A gRPC channel as produced by the factory: either a mutually
authenticated secure channel carrying the CA bundle, client key and client
certificate together with the ssl_target_name_override, or a plaintext
channel. -/
inductive Channel where
  | secure (target : String) (rootCa clientKey clientCert : Nat) (nameOverride : String)
  | insecure (target : String)
  deriving DecidableEq, Repr

/-- The address a channel points at. -/
def channelTarget : Channel → String
  | .secure t _ _ _ _ => t
  | .insecure t => t

/-- create_grpc_channel (src/dsa-lab5/rest/app.py lines 72-107): check that
ca.crt, rest-service.key and rest-service.crt all exist (a missing file
raises FileNotFoundError); build ssl credentials from their contents (a
parse failure raises); on success return a secure channel to
GRPC_HOST:GRPC_PORT with ssl_target_name_override = grpc-service; any
exception is caught and an insecure channel to the same address is returned
instead. -/
def createGrpcChannel (host port : String) (c : CredConfig) : Channel :=
  if c.caPresent && c.keyPresent && c.certPresent then
    if c.parseOk then
      .secure (grpcTarget host port) c.caBytes c.keyBytes c.certBytes "grpc-service"
    else .insecure (grpcTarget host port)
  else .insecure (grpcTarget host port)

/-- Whether a character list begins with another (used to model the Python
str.startswith checks of the sources on the Bearer scheme). -/
def charsStartWith : List Char → List Char → Bool
  | _, [] => true
  | [], _ :: _ => false
  | c :: cs, p :: ps => c == p && charsStartWith cs ps

/-- str.startswith on strings, via their character lists. -/
def strStartsWith (s pre : String) : Bool := charsStartWith s.data pre.data

/-- str.split on a separator character, Python-style: splitting an empty
string yields one empty field, and consecutive separators yield empty
fields. -/
def splitChars (sep : Char) : List Char → List (List Char)
  | [] => [[]]
  | c :: cs =>
    let rest := splitChars sep cs
    if c == sep then [] :: rest
    else
      match rest with
      | [] => [[c]]
      | r :: rs => (c :: r) :: rs

/-- str.strip, modelled for the space character (the only whitespace that
can appear around a Bearer token in an Authorization header value). -/
def trimChars (l : List Char) : List Char :=
  ((l.dropWhile (fun c => c == ' ')).reverse.dropWhile (fun c => c == ' ')).reverse

/-- The token extracted by token_required (src/dsa-lab5/rest/app.py line
233): auth_header.split(' ')[1]. -/
def authToken (s : String) : String := ⟨(splitChars ' ' s.data).getD 1 []⟩

/-- The token extracted by verify_token (src/dsa-lab5/rest/jwt_middleware.py
line 29): auth.removeprefix("Bearer ").strip() — the 7-character Bearer
scheme removed and surrounding whitespace stripped. -/
def bearerToken (auth : String) : String := ⟨trimChars (auth.data.drop 7)⟩

/-- Behaviour of jwt.decode inside token_required, abstracted: the token is
valid and carries a username, or raises ExpiredSignatureError,
InvalidTokenError, or some other exception. -/
inductive JwtOutcome where
  | valid (username : String)
  | expired
  | invalidTok
  | otherExc
  deriving DecidableEq, Repr

/-- Result of dispatching an HTTP request: the response status and whether
the wrapped handler body was actually run. -/
structure HandlerRun where
  status : Nat
  handlerRan : Bool
  deriving DecidableEq, Repr

/-- token_required (src/dsa-lab5/rest/app.py lines 221-248): a missing
Authorization header, a header not starting with Bearer, or any decode
failure (expired, invalid, other) yields 401 without running the wrapped
handler; a valid token runs the handler with the token's username.
`decodeTok` models jwt.decode with the configured SECRET_KEY and HS256. -/
def tokenRequired (decodeTok : String → JwtOutcome) (authHeader : Option String)
    (handler : String → Nat) : HandlerRun :=
  match authHeader with
  | none => ⟨401, false⟩
  | some s =>
    if strStartsWith s "Bearer " then
      match decodeTok (authToken s) with
      | .valid u => ⟨handler u, true⟩
      | .expired => ⟨401, false⟩
      | .invalidTok => ⟨401, false⟩
      | .otherExc => ⟨401, false⟩
    else ⟨401, false⟩

/-- GET /items route as wired in the source (lines 281-290): token_required
outside, then the retry-wrapped handler. -/
def itemsGetEndpoint (decodeTok : String → JwtOutcome) (authHeader : Option String)
    (backend : Nat → CallOutcome) : HandlerRun :=
  tokenRequired decodeTok authHeader (fun _ =>
    match (getAllItemsPipeline freshBreaker backend).result with
    | some (.success s) => s
    | _ => 500)

/-- POST /items route as wired in the source (lines 251-279): token_required
outside, then the breaker-guarded create handler. -/
def itemsPostEndpoint (decodeTok : String → JwtOutcome) (authHeader : Option String)
    (b : Breaker) (now : Nat) (backendOut : CallOutcome) : HandlerRun :=
  tokenRequired decodeTok authHeader (fun _ => (createItemPipeline b now backendOut).1)

/-- GET /items/{id} route as wired in the source (lines 292-304): only
@retry_grpc() — there is no token_required decorator, so the handler always
runs regardless of the Authorization header. -/
def itemGetByIdEndpoint (backend : Nat → CallOutcome) : HandlerRun :=
  ⟨match (getItemPipeline backend).result with
   | some (.success s) => s
   | _ => 500, true⟩

/-- POST /reset-breaker route as wired in the source (lines 204-218): no
token_required decorator; it closes the breaker and returns 200. Returns the
status, the new breaker, and whether the handler ran. -/
def resetBreakerEndpoint (b : Breaker) : Nat × Breaker × Bool :=
  (200, ⟨.closed, 0, b.openedAt⟩, true)

/-- A decoded but unverified JOSE token header: the optional key id and the
declared signing algorithm (src/dsa-lab5/rest/jwt_middleware.py lines
33-37). -/
structure JoseHeader where
  kid : Option String
  alg : String
  deriving DecidableEq, Repr

/-- The claim fields verify_token reads from a validated token
(src/dsa-lab5/rest/jwt_middleware.py line 54). -/
structure JoseClaims where
  preferredUsername : Option String
  sub : Option String
  deriving DecidableEq, Repr

/-- Behaviour of jose.jwt.decode: validated claims, or a raised JWTError
(signature mismatch, wrong issuer or audience, expiry, malformed token —
tagged by a number). -/
inductive DecodeResult where
  | ok (claims : JoseClaims)
  | jwtError (tag : Nat)
  deriving DecidableEq, Repr

/-- Expected issuer configured in src/dsa-lab5/rest/jwt_middleware.py
line 9. -/
def expectedIss : String := "http://localhost:8080/realms/dsa-lab"

/-- Expected audience configured in src/dsa-lab5/rest/jwt_middleware.py
line 10. -/
def expectedAud : String := "rest-client"

/-- Outcome of verify_token: abort the request with 401 and a reason, or
proceed with the resolved user identity and the claim set attached to the
request context. -/
inductive VerifyOutcome where
  | abort401 (reason : String)
  | proceed (user : Option String) (claims : JoseClaims)
  deriving DecidableEq, Repr

/-- A verify_token run: its outcome, and whether jose.jwt.decode (signature
verification) was ever invoked. -/
structure VerifyRun where
  outcome : VerifyOutcome
  decodeInvoked : Bool
  deriving DecidableEq, Repr

/-- verify_token (src/dsa-lab5/rest/jwt_middleware.py lines 21-60). The jose
primitives are abstracted as parameters: `getHeader` models
jose.jwt.get_unverified_header (none = raises JWTError on a malformed
token); `decode` models jose.jwt.decode applied to the token, the JWK
resolved for the key id (keys are abstracted as numbers), the algorithm
list, the audience, and the issuer — the source passes algorithms =
[header alg], audience = AUD, issuer = ISS. A missing Bearer scheme, a
malformed token, a header without kid, an unknown kid, or any decode error
aborts with 401. -/
def verifyToken (keys : List (String × Nat))
    (getHeader : String → Option JoseHeader)
    (decode : String → Nat → List String → String → String → DecodeResult)
    (auth : String) : VerifyRun :=
  if strStartsWith auth "Bearer " then
    let token := bearerToken auth
    match getHeader token with
    | none => ⟨.abort401 "invalid token", false⟩
    | some h =>
      match h.kid with
      | none => ⟨.abort401 "invalid header: missing kid", false⟩
      | some kid =>
        match keys.lookup kid with
        | none => ⟨.abort401 "unknown kid", false⟩
        | some jwkKey =>
          match decode token jwkKey [h.alg] expectedAud expectedIss with
          | .ok claims =>
              ⟨.proceed (claims.preferredUsername.orElse fun _ => claims.sub) claims, true⟩
          | .jwtError _ => ⟨.abort401 "invalid token", true⟩
  else ⟨.abort401 "missing Bearer token", false⟩

/-- Modelled from the spec: the per-request wiring of the Token Validator
(spec section 4.5 — "per-request middleware ... stops the request with
401"). The repository defines verify_token in jwt_middleware.py, but its
registration as a before-request hook is not among the sources; flask abort
semantics (the request ends with the given status, the handler never runs)
are modelled here. Returns the HTTP status and whether the handler ran. -/
def guardedRequest (keys : List (String × Nat))
    (getHeader : String → Option JoseHeader)
    (decode : String → Nat → List String → String → String → DecodeResult)
    (auth : String) (handler : JoseClaims → Nat) : Nat × Bool :=
  match (verifyToken keys getHeader decode auth).outcome with
  | .abort401 _ => (401, false)
  | .proceed _ claims => (handler claims, true)

/-- An item document in the backend store (src/dsa-lab5/grpc/server.py):
identifier and name. -/
structure Item where
  id : Int
  name : String
  deriving DecidableEq, Repr

/-- collection.find_one with an id filter (the items collection carries a
unique index on id). -/
def findById (s : List Item) (i : Int) : Option Item :=
  s.find? (fun it => it.id == i)

/-- _get_next_id (src/dsa-lab5/grpc/server.py lines 140-142):
find_one(sort id descending) picks the highest existing identifier; the
next id is that plus 1, or 1 when the store is empty. -/
def getNextId (s : List Item) : Int :=
  match (s.map Item.id).max? with
  | none => 1
  | some m => m + 1

/-- Reply of the AddItem RPC: an ALREADY_EXISTS conflict status, or the
created item echoed back. -/
inductive AddReply where
  | conflict
  | created (id : Int) (name : String)
  deriving DecidableEq, Repr

/-- AddItem (src/dsa-lab5/grpc/server.py lines 120-138): an explicit
positive identifier that already exists yields ALREADY_EXISTS and no
insert; otherwise the item is inserted with the explicit positive
identifier, or with the auto-assigned next identifier when the request
carries no positive id (the proto3 default for an absent id field is 0).
Returns the reply and the updated collection. -/
def addItem (s : List Item) (reqId : Int) (nm : String) : AddReply × List Item :=
  if 0 < reqId ∧ (findById s reqId).isSome then (.conflict, s)
  else
    let newId := if 0 < reqId then reqId else getNextId s
    (.created newId nm, s ++ [⟨newId, nm⟩])

/-! ## Helper lemmas about the breaker step function -/

theorem runCalls_rpc_cons (b : Breaker) (p : Nat × StatusCode) (l : List (Nat × StatusCode)) :
    runCalls b (rpcEvents (p :: l))
      = runCalls (breakerCall b p.1 (.rpcError p.2)).breaker (rpcEvents l) := rfl

theorem open_rejects (fc oa now : Nat) (out : CallOutcome)
    (ht : now < oa + resetTimeout) :
    breakerCall ⟨.opened, fc, oa⟩ now out = ⟨false, none, ⟨.opened, fc, oa⟩⟩ := by
  have hn : ¬ (oa + resetTimeout ≤ now) := by omega
  simp [breakerCall, beforeCall, hn]

theorem closed_fail_small (fc oa now : Nat) (c : StatusCode)
    (hc : excludedCode c = false) (hfc : fc + 1 < failMax) :
    (breakerCall ⟨.closed, fc, oa⟩ now (.rpcError c)).breaker = ⟨.closed, fc + 1, oa⟩ := by
  have hn : ¬ (failMax ≤ fc + 1) := by omega
  simp [breakerCall, beforeCall, afterCall, breakerFailure, hc, hn]

theorem closed_fail_open (fc oa now : Nat) (c : StatusCode)
    (hc : excludedCode c = false) (hfc : failMax ≤ fc + 1) :
    (breakerCall ⟨.closed, fc, oa⟩ now (.rpcError c)).breaker = ⟨.opened, fc + 1, now⟩ := by
  simp [breakerCall, beforeCall, afterCall, breakerFailure, hc, hfc]

theorem open_fail_step (fc oa now : Nat) (c : StatusCode)
    (hc : excludedCode c = false) :
    (breakerCall ⟨.opened, fc, oa⟩ now (.rpcError c)).breaker
      = if oa + resetTimeout ≤ now then ⟨.opened, fc + 1, now⟩ else ⟨.opened, fc, oa⟩ := by
  by_cases ht : oa + resetTimeout ≤ now
  · simp [breakerCall, beforeCall, afterCall, breakerFailure, hc, ht]
  · simp [breakerCall, beforeCall, ht]

theorem runCalls_keeps_open (l : List (Nat × StatusCode)) :
    ∀ fc oa, (∀ p ∈ l, excludedCode p.2 = false) →
      (runCalls ⟨.opened, fc, oa⟩ (rpcEvents l)).state = .opened := by
  induction l with
  | nil => intro fc oa _; simp [runCalls, rpcEvents]
  | cons p rest ih =>
    intro fc oa h
    have hp : excludedCode p.2 = false := h p (by simp)
    have hrest : ∀ q ∈ rest, excludedCode q.2 = false := fun q hq => h q (by simp [hq])
    rw [runCalls_rpc_cons, open_fail_step fc oa p.1 p.2 hp]
    by_cases ht : oa + resetTimeout ≤ p.1
    · rw [if_pos ht]; exact ih (fc + 1) p.1 hrest
    · rw [if_neg ht]; exact ih fc oa hrest

/-! ## C1 and C2: circuit-breaker opening and half-open trial -/

/-- C1: for every sequence of at least 3 consecutive transport failures on
breaker-guarded calls, the breaker (configured with fail_max = 3) ends up
OPEN, and every call made while it is OPEN, before the 30-second reset
timeout has elapsed since opening, is rejected with a breaker-open error
(outcome none) without the wrapped operation being invoked
(backendCalled = false), the breaker left unchanged. -/
theorem breaker_c1 (l : List (Nat × StatusCode)) (hlen : 3 ≤ l.length)
    (hcodes : ∀ p ∈ l, excludedCode p.2 = false) :
    (runCalls freshBreaker (rpcEvents l)).state = .opened ∧
    ∀ now out, now < (runCalls freshBreaker (rpcEvents l)).openedAt + resetTimeout →
      breakerCall (runCalls freshBreaker (rpcEvents l)) now out
        = ⟨false, none, runCalls freshBreaker (rpcEvents l)⟩ := by
  have hopen : (runCalls freshBreaker (rpcEvents l)).state = .opened := by
    match l, hlen with
    | p1 :: p2 :: p3 :: rest, _ =>
      have h1 : excludedCode p1.2 = false := hcodes p1 (by simp)
      have h2 : excludedCode p2.2 = false := hcodes p2 (by simp)
      have h3 : excludedCode p3.2 = false := hcodes p3 (by simp)
      have hrest : ∀ q ∈ rest, excludedCode q.2 = false := fun q hq => hcodes q (by simp [hq])
      show (runCalls ⟨.closed, 0, 0⟩ (rpcEvents (p1 :: p2 :: p3 :: rest))).state = .opened
      rw [runCalls_rpc_cons, closed_fail_small 0 0 p1.1 p1.2 h1 (by decide),
        runCalls_rpc_cons, closed_fail_small 1 0 p2.1 p2.2 h2 (by decide),
        runCalls_rpc_cons, closed_fail_open 2 0 p3.1 p3.2 h3 (by decide)]
      exact runCalls_keeps_open rest 3 p3.1 hrest
  refine ⟨hopen, fun now out hlt => ?_⟩
  rcases hB : runCalls freshBreaker (rpcEvents l) with ⟨st, fc, oa⟩
  rw [hB] at hopen hlt
  simp only at hopen hlt
  subst hopen
  exact open_rejects fc oa now out hlt

/-- Witness for breaker_c1: three consecutive UNAVAILABLE failures at times
0, 1, 2 open the breaker, and a call at time 10 (before the opening time 2
plus the 30-second timeout) is rejected without backend traffic. -/
theorem breaker_c1_witness :
    (runCalls freshBreaker
        (rpcEvents [(0, .unavailable), (1, .unavailable), (2, .unavailable)])).state
      = .opened ∧
    breakerCall
        (runCalls freshBreaker
          (rpcEvents [(0, .unavailable), (1, .unavailable), (2, .unavailable)]))
        10 (.success 0)
      = ⟨false, none,
          runCalls freshBreaker
            (rpcEvents [(0, .unavailable), (1, .unavailable), (2, .unavailable)])⟩ := by
  have h := breaker_c1 [(0, .unavailable), (1, .unavailable), (2, .unavailable)]
    (by decide) (by decide)
  exact ⟨h.1, h.2 10 (.success 0) (by decide)⟩

/-- C2: once the breaker has been OPEN for the reset timeout, the next call
is let through as the single HALF_OPEN trial (backendCalled = true): a
successful trial returns the breaker to CLOSED with consecutive-failure
count 0, while a failing trial re-opens it immediately with the opening
time restarted at the trial time, after which every call arriving before
that new opening time plus the reset timeout is rejected without backend
traffic — so only one trial was permitted. -/
theorem breaker_c2 (fc oa now v : Nat) (c : StatusCode)
    (ht : oa + resetTimeout ≤ now) (hc : excludedCode c = false) :
    breakerCall ⟨.opened, fc, oa⟩ now (.success v)
      = ⟨true, some (.success v), ⟨.closed, 0, oa⟩⟩ ∧
    breakerCall ⟨.opened, fc, oa⟩ now (.rpcError c)
      = ⟨true, some (.rpcError c), ⟨.opened, fc + 1, now⟩⟩ ∧
    ∀ now2 out2, now2 < now + resetTimeout →
      breakerCall ⟨.opened, fc + 1, now⟩ now2 out2
        = ⟨false, none, ⟨.opened, fc + 1, now⟩⟩ := by
  refine ⟨?_, ?_, ?_⟩
  · simp [breakerCall, beforeCall, afterCall, breakerFailure, ht]
  · simp [breakerCall, beforeCall, afterCall, breakerFailure, hc, ht]
  · intro now2 out2 h2
    exact open_rejects (fc + 1) now now2 out2 h2

/-- Witness for breaker_c2: a breaker opened at time 0 with 3 failures,
probed at time 30: a successful trial closes it with count 0; a failing
UNAVAILABLE trial re-opens it at 30 and a further call at time 45 is
rejected. -/
theorem breaker_c2_witness :
    breakerCall ⟨.opened, 3, 0⟩ 30 (.success 1)
      = ⟨true, some (.success 1), ⟨.closed, 0, 0⟩⟩ ∧
    breakerCall ⟨.opened, 3, 0⟩ 30 (.rpcError .unavailable)
      = ⟨true, some (.rpcError .unavailable), ⟨.opened, 4, 30⟩⟩ ∧
    breakerCall ⟨.opened, 4, 30⟩ 45 (.success 2)
      = ⟨false, none, ⟨.opened, 4, 30⟩⟩ := by
  have h := breaker_c2 3 0 30 1 .unavailable (by decide) (by decide)
  exact ⟨h.1, h.2.1, h.2.2 45 (.success 2) (by decide)⟩

/-! ## C3: retry wrapper behaviour -/

/-- C3: retry_grpc with its default configuration makes at most 3 attempts;
a wrapped call that raises a transport error on the first two attempts and
succeeds on the third returns the success result after exactly the two
backoff delays 100 ms and 200 ms (the delay doubling between attempts); and
when all 3 attempts raise, the error of the final attempt is propagated to
the caller unmodified. -/
theorem retry_c3 (f : Nat → CallOutcome) :
    (retryGrpc f).attempts ≤ 3 ∧
    (∀ c0 c1 v, f 0 = .rpcError c0 → f 1 = .rpcError c1 → f 2 = .success v →
      (retryGrpc f).result = some (.success v) ∧
      (retryGrpc f).delays = [100, 200] ∧ (retryGrpc f).attempts = 3) ∧
    (∀ c0 c1 c2, f 0 = .rpcError c0 → f 1 = .rpcError c1 → f 2 = .rpcError c2 →
      (retryGrpc f).result = some (.rpcError c2)) := by
  refine ⟨?_, ?_, ?_⟩
  · rcases h0 : f 0 with v0 | c0 | t0 <;>
      rcases h1 : f 1 with v1 | c1 | t1 <;>
      rcases h2 : f 2 with v2 | c2 | t2 <;>
      simp [retryGrpc, retryLoop, h0, h1, h2]
  · intro c0 c1 v h0 h1 h2
    refine ⟨?_, ?_, ?_⟩ <;> simp [retryGrpc, retryLoop, h0, h1, h2]
  · intro c0 c1 c2 h0 h1 h2
    simp [retryGrpc, retryLoop, h0, h1, h2]

/-- Witness for retry_c3: a call failing with UNAVAILABLE on attempts 0 and
1 and returning 7 on attempt 2 yields the success result 7 with delays
[100, 200] and 3 attempts. -/
theorem retry_c3_witness :
    (retryGrpc fun n => if n < 2 then .rpcError .unavailable else .success 7).result
      = some (.success 7) ∧
    (retryGrpc fun n => if n < 2 then .rpcError .unavailable else .success 7).delays
      = [100, 200] ∧
    (retryGrpc fun n => if n < 2 then .rpcError .unavailable else .success 7).attempts
      = 3 :=
  (retry_c3 fun n => if n < 2 then .rpcError .unavailable else .success 7).2.1
    .unavailable .unavailable 7 rfl rfl rfl

/-! ## C4: excluded outcomes, breaker counting, and retry of application errors -/

theorem closed_excluded_step (fc oa now : Nat) (c : StatusCode)
    (hc : excludedCode c = true) :
    (breakerCall ⟨.closed, fc, oa⟩ now (.rpcError c)).breaker = ⟨.closed, 0, oa⟩ := by
  simp [breakerCall, beforeCall, afterCall, breakerFailure, hc]

/-- C4 counterexample: the claim groups already-exists with the excluded
statuses and says no retry attempt is made on such outcomes. In the code,
ALREADY_EXISTS is not in the breaker's exclude list, so a single
ALREADY_EXISTS failure on a fresh breaker raises the consecutive-failure
count to 1 (the claim requires it to stay 0) and three of them open the
breaker; and the retry wrapper applied to a call that keeps raising
NOT_FOUND makes all 3 attempts with both backoff delays instead of
returning the outcome immediately. -/
theorem c4_counterexample :
    (breakerCall freshBreaker 0 (.rpcError .alreadyExists)).breaker.failCount = 1 ∧
    (runCalls freshBreaker
        (rpcEvents [(0, .alreadyExists), (1, .alreadyExists), (2, .alreadyExists)])).state
      = .opened ∧
    (retryGrpc fun _ => .rpcError .notFound).attempts = 3 ∧
    (retryGrpc fun _ => .rpcError .notFound).delays = [100, 200] := by
  decide

/-- C4 amended: not-found and invalid-argument outcomes (the configured
exclude list) never increase the breaker's consecutive-failure count, keep a
CLOSED breaker closed, and no sequence of them can move the breaker off its
fresh CLOSED state; already-exists outcomes, by contrast, do count as
breaker failures and increment the count; and the retry wrapper does not
return RpcError outcomes immediately — it retries any RpcError, whatever the
status code, up to the 3-attempt limit. -/
theorem c4_amended :
    (∀ b now c, excludedCode c = true →
      (breakerCall b now (.rpcError c)).breaker.failCount ≤ b.failCount ∧
      (b.state = .closed → (breakerCall b now (.rpcError c)).breaker.state = .closed)) ∧
    (∀ l, (∀ p ∈ l, excludedCode p.2 = true) →
      runCalls freshBreaker (rpcEvents l) = freshBreaker) ∧
    (∀ fc oa now,
      (breakerCall ⟨.closed, fc, oa⟩ now (.rpcError .alreadyExists)).breaker.failCount
        = fc + 1) ∧
    (∀ c, (retryGrpc fun _ => .rpcError c).attempts = 3) := by
  refine ⟨?_, ?_, ?_, ?_⟩
  · intro b now c hc
    have hbf : breakerFailure (.rpcError c) = false := by simp [breakerFailure, hc]
    rcases b with ⟨st, fc, oa⟩
    cases st
    · simp [breakerCall, beforeCall, afterCall, hbf]
    · by_cases ht : oa + resetTimeout ≤ now
      · simp [breakerCall, beforeCall, afterCall, hbf, ht]
      · simp [breakerCall, beforeCall, ht]
    · simp [breakerCall, beforeCall, afterCall, hbf]
  · intro l hl
    induction l with
    | nil => rfl
    | cons p rest ih =>
      have hp : excludedCode p.2 = true := hl p (by simp)
      have hrest : ∀ q ∈ rest, excludedCode q.2 = true := fun q hq => hl q (by simp [hq])
      show runCalls ⟨.closed, 0, 0⟩ (rpcEvents (p :: rest)) = freshBreaker
      rw [runCalls_rpc_cons, closed_excluded_step 0 0 p.1 p.2 hp]
      exact ih hrest
  · intro fc oa now
    by_cases h3 : failMax ≤ fc + 1 <;>
      simp [breakerCall, beforeCall, afterCall, breakerFailure, excludedCode, h3]
  · intro c
    simp [retryGrpc, retryLoop]

/-- Witness for c4_amended: a NOT_FOUND outcome on a breaker with count 2
does not raise the count and keeps it closed; a sequence of two NOT_FOUND
outcomes leaves the fresh breaker untouched; an ALREADY_EXISTS outcome on a
fresh breaker raises the count to 1; and retrying a call that keeps raising
NOT_FOUND makes 3 attempts. -/
theorem c4_amended_witness :
    (breakerCall ⟨.closed, 2, 0⟩ 5 (.rpcError .notFound)).breaker.failCount ≤ 2 ∧
    runCalls freshBreaker (rpcEvents [(0, .notFound), (1, .notFound)]) = freshBreaker ∧
    (breakerCall ⟨.closed, 0, 0⟩ 7 (.rpcError .alreadyExists)).breaker.failCount = 0 + 1 ∧
    (retryGrpc fun _ => .rpcError .notFound).attempts = 3 := by
  have h := c4_amended
  exact ⟨(h.1 ⟨.closed, 2, 0⟩ 5 .notFound (by decide)).1,
    h.2.1 [(0, .notFound), (1, .notFound)] (by decide),
    h.2.2.1 0 0 7, h.2.2.2 .notFound⟩

/-! ## C5: composition of retry and breaker -/

/-- C5 counterexample: with the breaker already OPEN (opened at time 0, the
probe arriving at time 1, well inside the 30-second timeout) and a backend
that keeps failing with UNAVAILABLE, the retry-wrapped GET /items path of
the code still reaches the backend (one attempt is made), while the
composition described by the spec — each retry attempt passing through
breaker.call — makes zero backend calls. The retry attempts of the code are
therefore not breaker-guarded. -/
theorem c5_counterexample :
    (getAllItemsPipeline ⟨.opened, 3, 0⟩ fun _ => .rpcError .unavailable).attempts = 1 ∧
    (specRetryThroughBreaker (fun _ => 1) (fun _ => .rpcError .unavailable) 3 0 100
        ⟨.opened, 3, 0⟩).2.2 = 0 := by
  decide

/-- C5 amended: retry and the circuit breaker are never composed in the
code. The retry-wrapped GET /items path calls the backend stub directly, so
its behaviour is entirely independent of the breaker state, and exactly one
backend attempt occurs per run (the handler catches RpcError itself, so the
retry wrapper never re-attempts); the breaker guards only the single,
non-retried AddItem call of POST /items, where an open breaker before the
reset timeout yields HTTP 500 with no backend traffic and no retry. -/
theorem c5_amended :
    (∀ b b2 backend, getAllItemsPipeline b backend = getAllItemsPipeline b2 backend) ∧
    (∀ b backend, (getAllItemsPipeline b backend).attempts = 1) ∧
    (∀ fc oa now out, now < oa + resetTimeout →
      createItemPipeline ⟨.opened, fc, oa⟩ now out = (500, ⟨.opened, fc, oa⟩, false)) := by
  refine ⟨fun _ _ _ => rfl, ?_, ?_⟩
  · intro b backend
    rcases hb : backend 0 with v | c | t <;>
      simp [getAllItemsPipeline, getAllItemsBody, retryGrpc, retryLoop, hb]
  · intro fc oa now out ht
    simp [createItemPipeline, open_rejects fc oa now out ht]

/-- Witness for c5_amended: concrete instances — the GET /items path with an
always-failing backend behaves identically under a fresh and an open
breaker and makes exactly one backend attempt, and POST /items under an
open breaker at time 1 returns 500 without reaching the backend. -/
theorem c5_amended_witness :
    getAllItemsPipeline ⟨.opened, 3, 0⟩ (fun _ => .rpcError .unavailable)
      = getAllItemsPipeline freshBreaker (fun _ => .rpcError .unavailable) ∧
    (getAllItemsPipeline ⟨.opened, 3, 0⟩ fun _ => .rpcError .unavailable).attempts = 1 ∧
    createItemPipeline ⟨.opened, 3, 0⟩ 1 (.success 5) = (500, ⟨.opened, 3, 0⟩, false) := by
  have h := c5_amended
  exact ⟨h.1 ⟨.opened, 3, 0⟩ freshBreaker (fun _ => .rpcError .unavailable),
    h.2.1 ⟨.opened, 3, 0⟩ (fun _ => .rpcError .unavailable),
    h.2.2 3 0 1 (.success 5) (by decide)⟩

/-! ## C6: channel factory -/

/-- C6: create_grpc_channel returns a mutually-authenticated secure channel
to the configured backend address, built from the CA bundle, client key and
client certificate, with the fixed ssl_target_name_override grpc-service,
exactly when all three credential files are present and parse successfully;
if any is missing or invalid it returns a plaintext channel to the same
address instead of failing; and in every case the returned channel targets
the configured address. -/
theorem channel_c6 (host port : String) (c : CredConfig) :
    (c.caPresent = true → c.keyPresent = true → c.certPresent = true → c.parseOk = true →
      createGrpcChannel host port c
        = .secure (grpcTarget host port) c.caBytes c.keyBytes c.certBytes "grpc-service") ∧
    ((c.caPresent = false ∨ c.keyPresent = false ∨ c.certPresent = false ∨
        c.parseOk = false) →
      createGrpcChannel host port c = .insecure (grpcTarget host port)) ∧
    channelTarget (createGrpcChannel host port c) = grpcTarget host port := by
  rcases c with ⟨ca, k, ce, cb, kb, ceb, p⟩
  refine ⟨?_, ?_, ?_⟩
  · intro h1 h2 h3 h4
    simp only at h1 h2 h3 h4
    subst h1; subst h2; subst h3; subst h4
    simp [createGrpcChannel]
  · intro h
    cases ca <;> cases k <;> cases ce <;> cases p <;> simp_all [createGrpcChannel]
  · cases ca <;> cases k <;> cases ce <;> cases p <;>
      simp [createGrpcChannel, channelTarget]

/-- Witness for channel_c6: with all three credentials present and parsing,
the factory yields the secure mutually-authenticated channel with the
grpc-service name override; with the client key file missing it yields the
plaintext channel to the same address. -/
theorem channel_c6_witness :
    createGrpcChannel "localhost" "50051" ⟨true, true, true, 10, 11, 12, true⟩
      = .secure (grpcTarget "localhost" "50051") 10 11 12 "grpc-service" ∧
    createGrpcChannel "localhost" "50051" ⟨true, false, true, 10, 11, 12, true⟩
      = .insecure (grpcTarget "localhost" "50051") ∧
    channelTarget (createGrpcChannel "localhost" "50051" ⟨true, false, true, 10, 11, 12, true⟩)
      = grpcTarget "localhost" "50051" := by
  refine ⟨?_, ?_, ?_⟩
  · exact (channel_c6 "localhost" "50051" ⟨true, true, true, 10, 11, 12, true⟩).1
      rfl rfl rfl rfl
  · exact (channel_c6 "localhost" "50051" ⟨true, false, true, 10, 11, 12, true⟩).2.1
      (Or.inr (Or.inl rfl))
  · exact (channel_c6 "localhost" "50051" ⟨true, false, true, 10, 11, 12, true⟩).2.2

/-! ## C7: which routes require a bearer token -/

/-- C7 counterexample: the claim requires every request to GET /items/{id}
and POST /reset-breaker without a bearer token to be rejected with 401
before handler logic runs. In the source neither route carries the
token_required decorator: the GET /items/{id} handler runs for a request
with no Authorization header at all and answers 200 from the backend, and
POST /reset-breaker likewise runs and answers 200. -/
theorem c7_counterexample :
    (itemGetByIdEndpoint fun _ => .success 7).handlerRan = true ∧
    (itemGetByIdEndpoint fun _ => .success 7).status = 200 ∧
    (resetBreakerEndpoint ⟨.opened, 3, 0⟩).1 = 200 ∧
    (resetBreakerEndpoint ⟨.opened, 3, 0⟩).2.2 = true := by
  decide

/-- C7 amended: only GET /items and POST /items are protected by
token_required — a missing Authorization header, a header without the
Bearer scheme, or a token that fails to decode yields 401 there without the
handler running — while GET /items/{id} and POST /reset-breaker carry no
token check at all and always run their handlers. -/
theorem c7_amended :
    (∀ dec handler, tokenRequired dec none handler = ⟨401, false⟩) ∧
    (∀ dec s handler, strStartsWith s "Bearer " = false →
      tokenRequired dec (some s) handler = ⟨401, false⟩) ∧
    (∀ (dec : String → JwtOutcome) s handler,
      dec (authToken s) = .invalidTok →
      tokenRequired dec (some s) handler = ⟨401, false⟩) ∧
    (∀ dec backend, itemsGetEndpoint dec none backend = ⟨401, false⟩) ∧
    (∀ dec b now out, itemsPostEndpoint dec none b now out = ⟨401, false⟩) ∧
    (∀ backend, (itemGetByIdEndpoint backend).handlerRan = true) ∧
    (∀ b, (resetBreakerEndpoint b).1 = 200 ∧ (resetBreakerEndpoint b).2.2 = true) := by
  refine ⟨fun _ _ => rfl, ?_, ?_, fun _ _ => rfl, fun _ _ _ _ => rfl,
    fun _ => rfl, fun _ => ⟨rfl, rfl⟩⟩
  · intro dec s handler hs
    simp [tokenRequired, hs]
  · intro dec s handler hdec
    by_cases hs : strStartsWith s "Bearer " <;> simp [tokenRequired, hs, hdec]

/-- Witness for c7_amended: a Basic-scheme header and an invalid Bearer
token are both rejected with 401 on the protected routes, while the
unprotected routes answer without any token. -/
theorem c7_amended_witness :
    tokenRequired (fun _ => .valid "admin") (some "Basic xyz") (fun _ => 200)
      = ⟨401, false⟩ ∧
    tokenRequired (fun _ => .invalidTok) (some "Bearer bad") (fun _ => 200)
      = ⟨401, false⟩ ∧
    itemsGetEndpoint (fun _ => .valid "admin") none (fun _ => .success 1)
      = ⟨401, false⟩ ∧
    (itemGetByIdEndpoint fun _ => .success 1).handlerRan = true := by
  have h := c7_amended
  exact ⟨h.2.1 (fun _ => .valid "admin") "Basic xyz" (fun _ => 200) (by decide),
    h.2.2.1 (fun _ => .invalidTok) "Bearer bad" (fun _ => 200) rfl,
    h.2.2.2.1 (fun _ => .valid "admin") (fun _ => .success 1),
    h.2.2.2.2.2.1 (fun _ => .success 1)⟩

/-! ## C8 and C10: backend AddItem semantics -/

/-- C8: an AddItem request carrying an explicit positive identifier that
already exists in the store is rejected with the ALREADY_EXISTS conflict
status and the store is unchanged; a request with no identifier (proto3
default 0) is inserted under the auto-assigned identifier — the highest
existing identifier plus 1, or 1 when the store is empty. -/
theorem addItem_c8 (s : List Item) (reqId : Int) (nm : String) :
    (0 < reqId → (findById s reqId).isSome = true →
      addItem s reqId nm = (.conflict, s)) ∧
    addItem s 0 nm = (.created (getNextId s) nm, s ++ [⟨getNextId s, nm⟩]) ∧
    (s = [] → getNextId s = 1) ∧
    (∀ m : Int, (s.map Item.id).max? = some m → getNextId s = m + 1) := by
  refine ⟨?_, ?_, ?_, ?_⟩
  · intro h1 h2
    simp [addItem, h1, h2]
  · simp [addItem]
  · intro h; subst h; rfl
  · intro m hm; simp [getNextId, hm]

/-- Witness for addItem_c8: creating id 1 over the store with items 1 and 2
is a conflict leaving the store unchanged, and creating with no identifier
over that store assigns identifier 3. -/
theorem addItem_c8_witness :
    addItem [⟨1, "a"⟩, ⟨2, "b"⟩] 1 "x" = (.conflict, [⟨1, "a"⟩, ⟨2, "b"⟩]) ∧
    addItem [⟨1, "a"⟩, ⟨2, "b"⟩] 0 "c"
      = (.created 3 "c", [⟨1, "a"⟩, ⟨2, "b"⟩, ⟨3, "c"⟩]) := by
  have h1 := addItem_c8 [⟨1, "a"⟩, ⟨2, "b"⟩] 1 "x"
  have h2 := addItem_c8 [⟨1, "a"⟩, ⟨2, "b"⟩] 0 "c"
  refine ⟨h1.1 (by decide) (by decide), ?_⟩
  rw [h2.2.1]
  decide

/-- C10: an AddItem request whose supplied identifier is zero or negative is
never answered with the ALREADY_EXISTS conflict: the non-positive
identifier is ignored and the item is inserted under the auto-assigned next
identifier, which is what the reply carries. -/
theorem addItem_c10 (s : List Item) (reqId : Int) (nm : String) (h : reqId ≤ 0) :
    (addItem s reqId nm).1 ≠ .conflict ∧
    addItem s reqId nm = (.created (getNextId s) nm, s ++ [⟨getNextId s, nm⟩]) := by
  have hn : ¬ (0 < reqId) := by omega
  constructor
  · simp [addItem, hn]
  · simp [addItem, hn]

/-- Witness for addItem_c10: supplying identifier -5 over a store holding
item 1 does not conflict and inserts under the auto-assigned identifier. -/
theorem addItem_c10_witness :
    (addItem [⟨1, "a"⟩] (-5) "z").1 ≠ .conflict ∧
    addItem [⟨1, "a"⟩] (-5) "z"
      = (.created (getNextId [⟨1, "a"⟩]) "z",
          [⟨1, "a"⟩] ++ [⟨getNextId [⟨1, "a"⟩], "z"⟩]) :=
  addItem_c10 [⟨1, "a"⟩] (-5) "z" (by decide)

/-! ## C9: token validation against the key set -/

/-- C9: verify_token running before a handler — a malformed token, a header
without a key id, or a key id that does not resolve in the startup-fetched
key set aborts the request with 401 without the handler running (and, for
the unknown-kid case, without signature verification being invoked); for a
known key id, jose.jwt.decode is invoked with the key resolved for that id,
the algorithm list [header alg], and the configured expected audience and
issuer, and any decode error (signature or issuer or audience mismatch,
expiry, malformed token) again yields 401 without the handler, while a
successful decode attaches the resolved identity and runs the handler. -/
theorem jwt_c9 (keys : List (String × Nat))
    (getHeader : String → Option JoseHeader)
    (decode : String → Nat → List String → String → String → DecodeResult)
    (auth : String) (handler : JoseClaims → Nat)
    (hs : strStartsWith auth "Bearer " = true) :
    (getHeader (bearerToken auth) = none →
      verifyToken keys getHeader decode auth = ⟨.abort401 "invalid token", false⟩ ∧
      guardedRequest keys getHeader decode auth handler = (401, false)) ∧
    ∀ h : JoseHeader, getHeader (bearerToken auth) = some h →
      (h.kid = none →
        verifyToken keys getHeader decode auth
          = ⟨.abort401 "invalid header: missing kid", false⟩ ∧
        guardedRequest keys getHeader decode auth handler = (401, false)) ∧
      ∀ kid, h.kid = some kid →
        (keys.lookup kid = none →
          verifyToken keys getHeader decode auth = ⟨.abort401 "unknown kid", false⟩ ∧
          guardedRequest keys getHeader decode auth handler = (401, false)) ∧
        ∀ jwkKey, keys.lookup kid = some jwkKey →
          (∀ e, decode (bearerToken auth) jwkKey [h.alg] expectedAud expectedIss
              = .jwtError e →
            verifyToken keys getHeader decode auth
              = ⟨.abort401 "invalid token", true⟩ ∧
            guardedRequest keys getHeader decode auth handler = (401, false)) ∧
          ∀ claims, decode (bearerToken auth) jwkKey [h.alg] expectedAud expectedIss
              = .ok claims →
            verifyToken keys getHeader decode auth
              = ⟨.proceed (claims.preferredUsername.orElse fun _ => claims.sub) claims,
                  true⟩ ∧
            guardedRequest keys getHeader decode auth handler = (handler claims, true) := by
  refine ⟨?_, ?_⟩
  · intro hg
    constructor <;> simp [verifyToken, guardedRequest, hs, hg]
  · intro h hh
    refine ⟨?_, ?_⟩
    · intro hkid
      constructor <;> simp [verifyToken, guardedRequest, hs, hh, hkid]
    · intro kid hkid
      refine ⟨?_, ?_⟩
      · intro hlk
        constructor <;> simp [verifyToken, guardedRequest, hs, hh, hkid, hlk]
      · intro jwkKey hlk
        refine ⟨?_, ?_⟩
        · intro e he
          constructor <;> simp [verifyToken, guardedRequest, hs, hh, hkid, hlk, he]
        · intro claims hc
          constructor <;> simp [verifyToken, guardedRequest, hs, hh, hkid, hlk, hc]

/-- Witness for jwt_c9: with the startup key set holding only key id k1, a
Bearer token whose header names key id k2 is rejected with the unknown-kid
401 and the handler never runs. -/
theorem jwt_c9_witness :
    verifyToken [("k1", 5)] (fun _ => some ⟨some "k2", "RS256"⟩)
        (fun _ _ _ _ _ => .jwtError 0) "Bearer tok"
      = ⟨.abort401 "unknown kid", false⟩ ∧
    guardedRequest [("k1", 5)] (fun _ => some ⟨some "k2", "RS256"⟩)
        (fun _ _ _ _ _ => .jwtError 0) "Bearer tok" (fun _ => 200)
      = (401, false) := by
  have h := jwt_c9 [("k1", 5)] (fun _ => some ⟨some "k2", "RS256"⟩)
    (fun _ _ _ _ _ => .jwtError 0) "Bearer tok" (fun _ => 200) (by decide)
  exact ((h.2 ⟨some "k2", "RS256"⟩ rfl).2 "k2" rfl).1 (by decide)

end DsaLab5
